import Mathlib

/-!
Shallow embedding of `sam.go` from the goSAM repository: a parser and
validator for SAM (sequence alignment/map) files.

Modelling conventions:
  * Go strings are modelled as Lean `String`, treated as sequences of
    characters (`String.data`); this is exact for ASCII input, and Go's
    own byte-level operations (`s[1:3]`, splitting on tab and colon)
    coincide with the character-level ones on ASCII data.
  * Go machine integers are modelled as `Nat` / `Int` with explicit
    reduction modulo `2^w` where the Go conversions `uint32(v)`,
    `uint16(v)`, `uint8(v)`, `int32(v)` truncate.
  * Code that can panic (out-of-range indexing) is modelled with
    `Option`: `none` is a runtime fault.
  * `container/list` lists are modelled as Lean lists (push-back is
    append at the end); a nil `*list.List` return is `none`, a non-nil
    list is `some`.
  * The file-opening and line-reading plumbing of `ReadSAMFile`
    (`os.Open`, `bufio.Reader.ReadLine`) is outside the modelled core:
    the scan is given the list of newline-stripped lines directly.
-/

namespace GoSAM

/-- Header line record, from `type HeaderLine struct` in sam.go. -/
structure HeaderLine where
  Version : String
  SortOrder : String
deriving DecidableEq

/-- Reference sequence dictionary record, from `type RefSeqDict struct`.
`Length` models the Go `uint32` field as a `Nat` (always `< 2^32` when
produced by the parser). -/
structure RefSeqDict where
  Name : String
  Length : Nat
  AssemblyID : String
  MD5 : String
  Species : String
  URI : String
deriving DecidableEq

/-- Read group record, from `type ReadGroup struct`. -/
structure ReadGroup where
  ID : String
  SeqCenter : String
  Description : String
  Date : String
  FlowOrder : String
  KeySeq : String
  Lib : String
  Programs : String
  PMIS : String
  Platform : String
  Unit : String
  Sample : String
deriving DecidableEq

/-- Program record, from `type Program struct`. -/
structure Program where
  ID : String
  Name : String
  CmdLine : String
  PrevID : String
deriving DecidableEq

/-- Alignment record, from `type Alignment struct`. `Flag`, `Pos`,
`Mapq`, `NextPos` model Go `uint16`/`uint32`/`uint8`/`uint32` as `Nat`;
`TemplateLen` models `int32` as `Int`. -/
structure Alignment where
  Qname : String
  Flag : Nat
  RefName : String
  Pos : Nat
  Mapq : Nat
  Cigar : String
  NextRef : String
  NextPos : Nat
  TemplateLen : Int
  Seq : String
  Qual : String
deriving DecidableEq

/-- Error value, from `type SAMerror struct`. -/
structure SAMerror where
  str : String
deriving DecidableEq

/-- Character-level model of Go `strings.Split` with a one-character
separator, on the character list: the empty input yields one empty
field, and every occurrence of the separator starts a new field, as in
Go. -/
def splitChar (sep : Char) : List Char → List (List Char)
  | [] => [[]]
  | c :: rest =>
    let r := splitChar sep rest
    if c = sep then [] :: r
    else
      match r with
      | [] => [[c]]
      | g :: gs => (c :: g) :: gs

/-- Go `strings.Split(s, sep)` for a one-character separator. -/
def goSplit (s : String) (sep : Char) : List String :=
  (splitChar sep s.data).map String.mk

/-- Whether a string is a syntactically valid operand for Go
`strconv.ParseInt(s, 10, 0)`: an optional single leading sign followed
by one or more ASCII digits. -/
def isGoDecimal (s : String) : Bool :=
  let ds := match s.data with
    | '+' :: rest => rest
    | '-' :: rest => rest
    | cs => cs
  !ds.isEmpty && ds.all Char.isDigit

/-- The digit characters of a Go decimal literal, with the sign
stripped. -/
def goDigitsOf (s : String) : List Char :=
  match s.data with
  | '+' :: rest => rest
  | '-' :: rest => rest
  | cs => cs

/-- Whether a Go decimal literal carries a leading minus sign. -/
def isNegDecimal (s : String) : Bool :=
  match s.data with
  | '-' :: _ => true
  | _ => false

/-- Numeric value of a digit string. -/
def decimalValue (ds : List Char) : Nat :=
  ds.foldl (fun n c => 10 * n + (c.toNat - '0'.toNat)) 0

/-- Go `strconv.Atoi(s)`: the returned `int` (64-bit) value, with the
error discarded as the source does (`v, _ := strconv.Atoi(...)`). On a
syntax error `ParseInt` returns 0; on a range error it returns the
maximum-magnitude value of the bit size, i.e. the result is clamped to
`[-2^63, 2^63 - 1]`. -/
def atoi (s : String) : Int :=
  if isGoDecimal s then
    let v : Int :=
      if isNegDecimal s then -(decimalValue (goDigitsOf s) : Int)
      else (decimalValue (goDigitsOf s) : Int)
    if v < -(2 ^ 63) then -(2 ^ 63)
    else if (2 ^ 63 - 1 : Int) < v then 2 ^ 63 - 1
    else v
  else 0

/-- Go conversion `uint32(v)` from `int`: truncation modulo `2^32`. -/
def toUint32 (v : Int) : Nat := (v % (2 ^ 32 : Int)).toNat

/-- Go conversion `uint16(v)` from `int`: truncation modulo `2^16`. -/
def toUint16 (v : Int) : Nat := (v % (2 ^ 16 : Int)).toNat

/-- Go conversion `uint8(v)` from `int`: truncation modulo `2^8`. -/
def toUint8 (v : Int) : Nat := (v % (2 ^ 8 : Int)).toNat

/-- Go conversion `int32(v)` from `int`: the low 32 bits read as a
signed value. -/
def toInt32 (v : Int) : Int :=
  let m := v % (2 ^ 32 : Int)
  if m < 2 ^ 31 then m else m - 2 ^ 32

/-- Go `regexp.Match("^[0-9]+.[0-9]+$", s)`, the pattern used by
`validateHeader`. The pattern is anchored at both ends; the dot is
unescaped, so it matches any single character except a newline. Hence
the match succeeds exactly when the string is one or more digits, then
one arbitrary non-newline character, then one or more digits. -/
def matchHeaderVersionPattern (s : String) : Bool :=
  let cs := s.data
  (List.range cs.length).any fun i =>
    decide (0 < i) && decide (i + 1 < cs.length) &&
    (cs.take i).all Char.isDigit &&
    !((cs.getD i '\n') = '\n' : Bool) &&
    (cs.drop (i + 1)).all Char.isDigit

/-- The leading character class `[!-)+-<>-~]` of the pattern
`"[!-)+-<>-~][!-~]*"` used by `validateRefSeqDict`: the visible ASCII
characters except `*` and `=`. -/
def refSeqNameClassChar (c : Char) : Bool :=
  ('!' ≤ c && c ≤ ')') || ('+' ≤ c && c ≤ '<') || ('>' ≤ c && c ≤ '~')

/-- Go `regexp.Match("[!-)+-<>-~][!-~]*", s)`: the pattern is
unanchored and its tail is a Kleene star, so a match exists exactly
when some character of `s` lies in the leading class. -/
def matchRefSeqNamePattern (s : String) : Bool :=
  s.data.any refSeqNameClassChar

/-- Go `regexp.Match` with any of the star-prefixed patterns of the
source (`"*|[ACMGRSVTWYHKDBN]+"` in `validateReadGroup`, and
`"*|[!-?A-~]+"`, `"*|[!-()+-<>-~][!-~]*"`, `"*|([0-9]+[MIDNSHPX=])+"`,
`"*|=|[!-()+-<>-~][!-~]*"`, `"*|[A-Za-z=.]+"`, `"*|[!-~]+"` in
`validateAlignment`). A leading `*` has no operand to repeat, so
`regexp.Compile` fails with a missing-argument-to-repetition-operator
error and `regexp.Match` returns `(false, err)`; the source ignores the
error, so the boolean result is `false` for every input. The intended
patterns, per the struct field comments, begin with an escaped star. -/
def matchStarPattern (_s : String) : Bool := false

/-- `validateHeader` from sam.go: the version must match the anchored
pattern; the returned pair is the Go `(bool, error)`. -/
def validateHeader (hl : HeaderLine) : Bool × Option SAMerror :=
  if matchHeaderVersionPattern hl.Version then (true, none)
  else (false, some ⟨"Invalid version in SAM Header"⟩)

/-- `validateRefSeqDict` from sam.go. Note that when the name matches
but the length is out of range the function returns `(false, nil)`:
the error component is nil. -/
def validateRefSeqDict (rsd : RefSeqDict) : Bool × Option SAMerror :=
  if !matchRefSeqNamePattern rsd.Name then
    (false, some ⟨"Invalid reference sequence name"⟩)
  else
    (decide (1 ≤ rsd.Length) && decide (rsd.Length ≤ 0x1FFFFFFF), none)

/-- The `validPlatforms` map of sam.go, as the list of its keys. -/
def validPlatforms : List String :=
  ["CAPILLARY", "LS454", "ILLUMINA", "SOLID", "HELICOS", "IONTORRENT", "PACBIO"]

/-- `validateReadGroup` from sam.go: a non-empty `FlowOrder` is checked
against the (non-compiling) pattern `"*|[ACMGRSVTWYHKDBN]+"`, a
non-empty `Platform` against the platform map. -/
def validateReadGroup (rg : ReadGroup) : Bool × Option SAMerror :=
  if rg.FlowOrder ≠ "" && !matchStarPattern rg.FlowOrder then
    (false, some ⟨"Invalid flow order in read group"⟩)
  else if rg.Platform ≠ "" && !(validPlatforms.contains rg.Platform) then
    (false, some ⟨"Invalid platform in read group"⟩)
  else (true, none)

/-- `validateProgram` from sam.go. -/
def validateProgram (prog : Program) : Bool × Option SAMerror :=
  if prog.ID = "" then (false, some ⟨"Program ID is required"⟩)
  else (true, none)

/-- `validateAlignment` from sam.go: the eleven field checks in source
order. The Go `< 0` halves of the unsigned range checks are vacuous for
unsigned types and are dropped; the star-prefixed patterns do not
compile, so each of those matches is constantly false and the first
check (Qname) always fails. -/
def validateAlignment (a : Alignment) : Bool × Option SAMerror :=
  if !matchStarPattern a.Qname then
    (false, some ⟨"Invalid qname in alignment"⟩)
  else if a.Flag > 0xFFFF then
    (false, some ⟨"Invalid flag in alignment"⟩)
  else if !matchStarPattern a.RefName then
    (false, some ⟨"Invalid reference sequence name in alignment"⟩)
  else if a.Pos > 0x1FFFFFFF then
    (false, some ⟨"Alignment mapping position out of valid range"⟩)
  else if a.Mapq > 0xFF then
    (false, some ⟨"Alignment mapping quality out of valid range"⟩)
  else if !matchStarPattern a.Cigar then
    (false, some ⟨"Invalid CIGAR string in alignment"⟩)
  else if !matchStarPattern a.NextRef then
    (false, some ⟨"Invalid next reference name in alignment"⟩)
  else if a.NextPos > 0x1FFFFFFF then
    (false, some ⟨"Alignment mapping position out of valid range"⟩)
  else if a.TemplateLen < -(0x1FFFFFFF : Int) ∨ (0x1FFFFFFF : Int) < a.TemplateLen then
    (false, some ⟨"Invalid template length"⟩)
  else if !matchStarPattern a.Seq then
    (false, some ⟨"Invalid sequence in alignment"⟩)
  else if !matchStarPattern a.Qual then
    (false, some ⟨"Invalie Phred quality in alignment"⟩)
  else (true, none)

/-- One field step of `parseHeader`: split the tab field on colons,
read `tva[0]` and `tva[1]` (the latter is an out-of-range fault when
the field has no colon), and dispatch through `hlParseMap`; unknown
keys leave the record unchanged. -/
def parseHeaderField (hl : HeaderLine) (tv : String) : Option HeaderLine :=
  match goSplit tv ':' with
  | tag :: val :: _ =>
    if tag = "VN" then some { hl with Version := val }
    else if tag = "SO" then some { hl with SortOrder := val }
    else some hl
  | _ => none

/-- `parseHeader` from sam.go: fold the field step over the tab fields
after the leading tag field, starting from the zero-valued record. -/
def parseHeader (line : String) : Option HeaderLine :=
  List.foldlM parseHeaderField ⟨"", ""⟩ ((goSplit line '\t').drop 1)

/-- One field step of `parseRefSeqDict`: a `switch` on `tva[0]`, so
`tva[1]` is read (and can fault) only for the six known keys; unknown
keys, with or without a colon, leave the record unchanged. -/
def parseRefSeqDictField (rsd : RefSeqDict) (tv : String) : Option RefSeqDict :=
  match goSplit tv ':' with
  | tag :: rest =>
    if tag = "SN" then
      match rest with
      | val :: _ => some { rsd with Name := val }
      | [] => none
    else if tag = "LN" then
      match rest with
      | val :: _ => some { rsd with Length := toUint32 (atoi val) }
      | [] => none
    else if tag = "AS" then
      match rest with
      | val :: _ => some { rsd with AssemblyID := val }
      | [] => none
    else if tag = "M5" then
      match rest with
      | val :: _ => some { rsd with MD5 := val }
      | [] => none
    else if tag = "SP" then
      match rest with
      | val :: _ => some { rsd with Species := val }
      | [] => none
    else if tag = "UR" then
      match rest with
      | val :: _ => some { rsd with URI := val }
      | [] => none
    else some rsd
  | [] => none

/-- `parseRefSeqDict` from sam.go. -/
def parseRefSeqDict (line : String) : Option RefSeqDict :=
  List.foldlM parseRefSeqDictField ⟨"", 0, "", "", "", ""⟩ ((goSplit line '\t').drop 1)

/-- One field step of `parseReadGroup`, dispatching through
`rgParseMap`; like `parseHeader`, `tva[1]` is read before the lookup,
so a colon-less field faults. -/
def parseReadGroupField (rg : ReadGroup) (tv : String) : Option ReadGroup :=
  match goSplit tv ':' with
  | tag :: val :: _ =>
    if tag = "ID" then some { rg with ID := val }
    else if tag = "CN" then some { rg with SeqCenter := val }
    else if tag = "DS" then some { rg with Description := val }
    else if tag = "DT" then some { rg with Date := val }
    else if tag = "FO" then some { rg with FlowOrder := val }
    else if tag = "KS" then some { rg with KeySeq := val }
    else if tag = "LB" then some { rg with Lib := val }
    else if tag = "PG" then some { rg with Programs := val }
    else if tag = "PI" then some { rg with PMIS := val }
    else if tag = "PL" then some { rg with Platform := val }
    else if tag = "PU" then some { rg with Unit := val }
    else if tag = "SM" then some { rg with Sample := val }
    else some rg
  | _ => none

/-- `parseReadGroup` from sam.go. -/
def parseReadGroup (line : String) : Option ReadGroup :=
  List.foldlM parseReadGroupField ⟨"", "", "", "", "", "", "", "", "", "", "", ""⟩
    ((goSplit line '\t').drop 1)

/-- One field step of `parseProgram`, dispatching through
`programParseMap`; `tva[1]` is read before the lookup. -/
def parseProgramField (prog : Program) (tv : String) : Option Program :=
  match goSplit tv ':' with
  | tag :: val :: _ =>
    if tag = "ID" then some { prog with ID := val }
    else if tag = "PN" then some { prog with Name := val }
    else if tag = "CL" then some { prog with CmdLine := val }
    else if tag = "PP" then some { prog with PrevID := val }
    else some prog
  | _ => none

/-- `parseProgram` from sam.go. -/
def parseProgram (line : String) : Option Program :=
  List.foldlM parseProgramField ⟨"", "", "", ""⟩ ((goSplit line '\t').drop 1)

/-- `parseAlignment` from sam.go: strictly positional on the tab
fields; reading `fields[1]` through `fields[10]` is an out-of-range
fault when the line has fewer than 11 tab-separated fields. -/
def parseAlignment (line : String) : Option Alignment :=
  match goSplit line '\t' with
  | f0 :: f1 :: f2 :: f3 :: f4 :: f5 :: f6 :: f7 :: f8 :: f9 :: f10 :: _ =>
    some
      { Qname := f0
        Flag := toUint16 (atoi f1)
        RefName := f2
        Pos := toUint32 (atoi f3)
        Mapq := toUint8 (atoi f4)
        Cigar := f5
        NextRef := f6
        NextPos := toUint32 (atoi f7)
        TemplateLen := toInt32 (atoi f8)
        Seq := f9
        Qual := f10 }
  | _ => none

/-- The in-progress state of one `ReadSAMFile` scan: the header
pointer, the four accumulation lists, and the three uniqueness maps
(modelled as lists of the keys inserted so far). -/
structure ScanState where
  header : Option HeaderLine
  rsdl : List RefSeqDict
  rgl : List ReadGroup
  progl : List Program
  al : List Alignment
  rsdNames : List String
  rgIDs : List String
  progIDs : List String
deriving DecidableEq

/-- The five-value return of `ReadSAMFile` plus its error: the header
pointer, the four `*list.List` results (`none` models a nil list
pointer), and the error (`none` models a nil error). -/
structure SAMResult where
  header : Option HeaderLine
  rsdl : Option (List RefSeqDict)
  rgl : Option (List ReadGroup)
  progl : Option (List Program)
  al : Option (List Alignment)
  err : Option SAMerror
deriving DecidableEq

/-- The line classification `s[1:3]` of `ReadSAMFile`: the two
characters at positions 1 and 2. Go slicing of a string shorter than 3
bytes is an out-of-range fault, modelled as `none`. -/
def lineTag (s : String) : Option String :=
  if s.data.length < 3 then none
  else some (String.mk ((s.data.drop 1).take 2))

/-- The `case "HD"` branch of the `ReadSAMFile` loop. -/
def stepHD (st : ScanState) (s : String) : Option (Except SAMResult ScanState) :=
  match parseHeader s with
  | none => none
  | some hl =>
    if (validateHeader hl).1 then some (.ok { st with header := some hl })
    else some (.error ⟨some hl, none, none, none, none, (validateHeader hl).2⟩)

/-- The `case "SQ"` branch: grammar validation, then the uniqueness
check against `rsdNames`, then accumulation. -/
def stepSQ (st : ScanState) (s : String) : Option (Except SAMResult ScanState) :=
  match parseRefSeqDict s with
  | none => none
  | some rsd =>
    if (validateRefSeqDict rsd).1 then
      if st.rsdNames.contains rsd.Name then
        some (.error ⟨st.header, some st.rsdl, none, none, none,
          some ⟨"Reference sequence name is not unique"⟩⟩)
      else
        some (.ok { st with rsdl := st.rsdl ++ [rsd], rsdNames := rsd.Name :: st.rsdNames })
    else
      some (.error ⟨st.header, none, none, none, none, (validateRefSeqDict rsd).2⟩)

/-- The `case "RG"` branch. -/
def stepRG (st : ScanState) (s : String) : Option (Except SAMResult ScanState) :=
  match parseReadGroup s with
  | none => none
  | some rg =>
    if (validateReadGroup rg).1 then
      if st.rgIDs.contains rg.ID then
        some (.error ⟨st.header, some st.rsdl, some st.rgl, none, none,
          some ⟨"Read group name is not unique"⟩⟩)
      else
        some (.ok { st with rgl := st.rgl ++ [rg], rgIDs := rg.ID :: st.rgIDs })
    else
      some (.error ⟨st.header, some st.rsdl, some st.rgl, none, none, (validateReadGroup rg).2⟩)

/-- The `case "PG"` branch. -/
def stepPG (st : ScanState) (s : String) : Option (Except SAMResult ScanState) :=
  match parseProgram s with
  | none => none
  | some prog =>
    if (validateProgram prog).1 then
      if st.progIDs.contains prog.ID then
        some (.error ⟨st.header, some st.rsdl, some st.rgl, some st.progl, none,
          some ⟨"Program ID is not unique"⟩⟩)
      else
        some (.ok { st with progl := st.progl ++ [prog], progIDs := prog.ID :: st.progIDs })
    else
      some (.error ⟨st.header, some st.rsdl, some st.rgl, some st.progl, none,
        (validateProgram prog).2⟩)

/-- The `default` branch: every line whose tag is none of the five
codes is parsed and validated as an alignment. -/
def stepAlignment (st : ScanState) (s : String) : Option (Except SAMResult ScanState) :=
  match parseAlignment s with
  | none => none
  | some a =>
    if (validateAlignment a).1 then
      some (.ok { st with al := st.al ++ [a] })
    else
      some (.error ⟨st.header, some st.rsdl, some st.rgl, some st.progl, some st.al,
        (validateAlignment a).2⟩)

/-- One iteration of the `ReadSAMFile` loop on line `s`: classify by
`s[1:3]` and dispatch; `case "CO"` is a no-op. -/
def step (st : ScanState) (s : String) : Option (Except SAMResult ScanState) :=
  match lineTag s with
  | none => none
  | some tag =>
    if tag = "HD" then stepHD st s
    else if tag = "SQ" then stepSQ st s
    else if tag = "RG" then stepRG st s
    else if tag = "PG" then stepPG st s
    else if tag = "CO" then some (.ok st)
    else stepAlignment st s

/-- The `ReadSAMFile` loop over the remaining lines: stop at the first
early return (`Except.error`) or fault (`none`). -/
def runLines (st : ScanState) : List String → Option (Except SAMResult ScanState)
  | [] => some (.ok st)
  | s :: rest =>
    match step st s with
    | none => none
    | some (.error res) => some (.error res)
    | some (.ok st') => runLines st' rest

/-- The scan state at the start of `ReadSAMFile`: nil header, four
fresh empty lists, three empty uniqueness maps. -/
def initState : ScanState := ⟨none, [], [], [], [], [], [], []⟩

/-- `ReadSAMFile` from sam.go, on the list of newline-stripped lines of
the file: run the loop from the initial state; an early return yields
its six-value result, normal completion returns the four lists as
built with a nil error. -/
def ReadSAMFile (lines : List String) : Option SAMResult :=
  match runLines initState lines with
  | none => none
  | some (.error res) => some res
  | some (.ok st) => some ⟨st.header, some st.rsdl, some st.rgl, some st.progl, some st.al, none⟩


/-- Running the loop over an appended list continues from the state
reached by a successfully scanned prefix. -/
theorem runLines_append_ok (st st' : ScanState) (xs ys : List String)
    (h : runLines st xs = some (.ok st')) :
    runLines st (xs ++ ys) = runLines st' ys := by
  induction xs generalizing st with
  | nil =>
    simp only [runLines, Option.some.injEq] at h
    cases h
    simp [runLines]
  | cons x xs ih =>
    cases hs : step st x with
    | none => simp [runLines, hs] at h
    | some e =>
      cases e with
      | error r => simp [runLines, hs] at h
      | ok st1 =>
        have h1 : runLines st1 xs = some (.ok st') := by
          simpa [runLines, hs] using h
        simpa [runLines, hs] using ih st1 h1

/-- Shape of a successful HD step: only the header changes. -/
theorem stepHD_ok (st st' : ScanState) (s : String)
    (h : stepHD st s = some (.ok st')) :
    ∃ hl, parseHeader s = some hl ∧ st' = { st with header := some hl } := by
  unfold stepHD at h
  cases hp : parseHeader s with
  | none => simp only [hp] at h; exact Option.noConfusion h
  | some hl =>
    simp only [hp] at h
    split at h
    · refine ⟨hl, rfl, ?_⟩
      simp only [Option.some.injEq, Except.ok.injEq] at h
      exact h.symm
    · simp at h

/-- Shape of a successful SQ step: the record is appended to the
RefSeqDict list and its name is recorded in the uniqueness map. -/
theorem stepSQ_ok (st st' : ScanState) (s : String)
    (h : stepSQ st s = some (.ok st')) :
    ∃ r, parseRefSeqDict s = some r ∧
      st' = { st with rsdl := st.rsdl ++ [r], rsdNames := r.Name :: st.rsdNames } := by
  unfold stepSQ at h
  cases hp : parseRefSeqDict s with
  | none => simp only [hp] at h; exact Option.noConfusion h
  | some r =>
    simp only [hp] at h
    split at h
    · split at h
      · simp at h
      · refine ⟨r, rfl, ?_⟩
        simp only [Option.some.injEq, Except.ok.injEq] at h
        exact h.symm
    · simp at h

/-- Shape of a successful RG step. -/
theorem stepRG_ok (st st' : ScanState) (s : String)
    (h : stepRG st s = some (.ok st')) :
    ∃ rg, parseReadGroup s = some rg ∧
      st' = { st with rgl := st.rgl ++ [rg], rgIDs := rg.ID :: st.rgIDs } := by
  unfold stepRG at h
  cases hp : parseReadGroup s with
  | none => simp only [hp] at h; exact Option.noConfusion h
  | some rg =>
    simp only [hp] at h
    split at h
    · split at h
      · simp at h
      · refine ⟨rg, rfl, ?_⟩
        simp only [Option.some.injEq, Except.ok.injEq] at h
        exact h.symm
    · simp at h

/-- Shape of a successful PG step. -/
theorem stepPG_ok (st st' : ScanState) (s : String)
    (h : stepPG st s = some (.ok st')) :
    ∃ p, parseProgram s = some p ∧
      st' = { st with progl := st.progl ++ [p], progIDs := p.ID :: st.progIDs } := by
  unfold stepPG at h
  cases hp : parseProgram s with
  | none => simp only [hp] at h; exact Option.noConfusion h
  | some p =>
    simp only [hp] at h
    split at h
    · split at h
      · simp at h
      · refine ⟨p, rfl, ?_⟩
        simp only [Option.some.injEq, Except.ok.injEq] at h
        exact h.symm
    · simp at h

/-- Because every star-prefixed pattern match is constantly false,
`validateAlignment` rejects every record at the first (Qname) check. -/
theorem validateAlignment_const (a : GoSAM.Alignment) :
    validateAlignment a = (false, some ⟨"Invalid qname in alignment"⟩) := by
  simp [validateAlignment, matchStarPattern]

/-- The alignment branch never produces a successful step: parsed
records always fail validation at the Qname check. -/
theorem stepAlignment_ok (st st' : ScanState) (s : String)
    (h : stepAlignment st s = some (.ok st')) : False := by
  unfold stepAlignment at h
  cases hp : parseAlignment s with
  | none => simp only [hp] at h; exact Option.noConfusion h
  | some a => simp [hp, validateAlignment_const a] at h

/-- A successful step preserves membership in the RefSeqDict list and
in the set of recorded names. -/
theorem step_ok_preserves (st st' : ScanState) (s : String)
    (h : step st s = some (.ok st')) :
    (∀ r, r ∈ st.rsdl → r ∈ st'.rsdl) ∧ (∀ n, n ∈ st.rsdNames → n ∈ st'.rsdNames) := by
  unfold step at h
  cases ht : lineTag s with
  | none => simp only [ht] at h; exact Option.noConfusion h
  | some tag =>
    simp only [ht] at h
    split at h
    · obtain ⟨hl, _, rfl⟩ := stepHD_ok _ _ _ h
      exact ⟨fun r hr => hr, fun n hn => hn⟩
    · split at h
      · obtain ⟨r, _, rfl⟩ := stepSQ_ok _ _ _ h
        exact ⟨fun x hx => List.mem_append_left _ hx, fun n hn => List.mem_cons_of_mem _ hn⟩
      · split at h
        · obtain ⟨rg, _, rfl⟩ := stepRG_ok _ _ _ h
          exact ⟨fun r hr => hr, fun n hn => hn⟩
        · split at h
          · obtain ⟨p, _, rfl⟩ := stepPG_ok _ _ _ h
            exact ⟨fun r hr => hr, fun n hn => hn⟩
          · split at h
            · simp only [Option.some.injEq, Except.ok.injEq] at h
              cases h
              exact ⟨fun r hr => hr, fun n hn => hn⟩
            · exact (stepAlignment_ok _ _ _ h).elim

/-- A line whose tag is SQ is dispatched to the SQ branch. -/
theorem step_of_tag_sq (st : ScanState) (s : String)
    (htag : lineTag s = some "SQ") : step st s = stepSQ st s := by
  unfold step
  rw [htag]
  rfl

/-- A successfully stepped SQ line leaves its record in the list and
its name in the uniqueness map. -/
theorem step_ok_sq_mem (st st' : ScanState) (s : String) (r : RefSeqDict)
    (htag : lineTag s = some "SQ") (hp : parseRefSeqDict s = some r)
    (h : step st s = some (.ok st')) :
    r ∈ st'.rsdl ∧ r.Name ∈ st'.rsdNames := by
  rw [step_of_tag_sq st s htag] at h
  obtain ⟨r', hp', rfl⟩ := stepSQ_ok _ _ _ h
  rw [hp] at hp'
  cases hp'
  constructor
  · exact List.mem_append_right _ (List.mem_singleton.mpr rfl)
  · exact List.mem_cons_self _ _

/-- A successful run preserves membership in the RefSeqDict list and
the recorded names. -/
theorem runLines_ok_preserves (ls : List String) (st st' : ScanState)
    (h : runLines st ls = some (.ok st')) :
    (∀ r, r ∈ st.rsdl → r ∈ st'.rsdl) ∧ (∀ n, n ∈ st.rsdNames → n ∈ st'.rsdNames) := by
  induction ls generalizing st with
  | nil =>
    simp only [runLines, Option.some.injEq] at h
    cases h
    exact ⟨fun r hr => hr, fun n hn => hn⟩
  | cons x xs ih =>
    cases hs : step st x with
    | none => simp [runLines, hs] at h
    | some e =>
      cases e with
      | error rr => simp [runLines, hs] at h
      | ok st1 =>
        have h1 : runLines st1 xs = some (.ok st') := by simpa [runLines, hs] using h
        have p1 := step_ok_preserves st st1 x hs
        have p2 := ih st1 h1
        exact ⟨fun r hr => p2.1 r (p1.1 r hr), fun n hn => p2.2 n (p1.2 n hn)⟩

/-- Every SQ line of a successfully completed run has its record in
the final RefSeqDict list and its name in the uniqueness map. -/
theorem runLines_ok_sq_mem (ls : List String) (st st' : ScanState) (l : String) (r : RefSeqDict)
    (hl : l ∈ ls) (htag : lineTag l = some "SQ") (hp : parseRefSeqDict l = some r)
    (h : runLines st ls = some (.ok st')) :
    r ∈ st'.rsdl ∧ r.Name ∈ st'.rsdNames := by
  induction ls generalizing st with
  | nil => cases hl
  | cons x xs ih =>
    cases hs : step st x with
    | none => simp [runLines, hs] at h
    | some e =>
      cases e with
      | error rr => simp [runLines, hs] at h
      | ok st1 =>
        have h1 : runLines st1 xs = some (.ok st') := by simpa [runLines, hs] using h
        cases hl with
        | head =>
          have hx := step_ok_sq_mem st st1 _ r htag hp hs
          have hpres := runLines_ok_preserves xs st1 st' h1
          exact ⟨hpres.1 r hx.1, hpres.2 _ hx.2⟩
        | tail _ hmem => exact ih st1 hmem h1

/-- An SQ line whose record passes grammar validation but whose name is
already recorded aborts the step with the duplicate-name result. -/
theorem step_sq_dup (st : ScanState) (s : String) (r : RefSeqDict)
    (htag : lineTag s = some "SQ") (hp : parseRefSeqDict s = some r)
    (hvalid : (validateRefSeqDict r).1 = true)
    (hdup : r.Name ∈ st.rsdNames) :
    step st s = some (.error ⟨st.header, some st.rsdl, none, none, none,
      some ⟨"Reference sequence name is not unique"⟩⟩) := by
  rw [step_of_tag_sq st s htag]
  unfold stepSQ
  simp [hp, hvalid, hdup]

/-- Shape of an HD-branch abort: the new header and four nil lists. -/
theorem stepHD_error (st : ScanState) (s : String) (res : SAMResult)
    (h : stepHD st s = some (.error res)) :
    ∃ hl e, res = ⟨some hl, none, none, none, none, e⟩ := by
  unfold stepHD at h
  cases hp : parseHeader s with
  | none => simp only [hp] at h; exact Option.noConfusion h
  | some hl =>
    simp only [hp] at h
    split at h
    · simp at h
    · simp only [Option.some.injEq, Except.error.injEq] at h
      exact ⟨hl, _, h.symm⟩

/-- Shape of an SQ-branch abort: four nil lists on a grammar failure,
or the as-built RefSeqDict list on a duplicate name. -/
theorem stepSQ_error (st : ScanState) (s : String) (res : SAMResult)
    (h : stepSQ st s = some (.error res)) :
    (∃ e, res = ⟨st.header, none, none, none, none, e⟩) ∨
    res = ⟨st.header, some st.rsdl, none, none, none,
      some ⟨"Reference sequence name is not unique"⟩⟩ := by
  unfold stepSQ at h
  cases hp : parseRefSeqDict s with
  | none => simp only [hp] at h; exact Option.noConfusion h
  | some r =>
    simp only [hp] at h
    split at h
    · split at h
      · right
        simp only [Option.some.injEq, Except.error.injEq] at h
        exact h.symm
      · simp at h
    · left
      simp only [Option.some.injEq, Except.error.injEq] at h
      exact ⟨_, h.symm⟩

/-- Shape of an RG-branch abort. -/
theorem stepRG_error (st : ScanState) (s : String) (res : SAMResult)
    (h : stepRG st s = some (.error res)) :
    ∃ e, res = ⟨st.header, some st.rsdl, some st.rgl, none, none, e⟩ := by
  unfold stepRG at h
  cases hp : parseReadGroup s with
  | none => simp only [hp] at h; exact Option.noConfusion h
  | some rg =>
    simp only [hp] at h
    split at h
    · split at h
      · simp only [Option.some.injEq, Except.error.injEq] at h
        exact ⟨_, h.symm⟩
      · simp at h
    · simp only [Option.some.injEq, Except.error.injEq] at h
      exact ⟨_, h.symm⟩

/-- Shape of a PG-branch abort. -/
theorem stepPG_error (st : ScanState) (s : String) (res : SAMResult)
    (h : stepPG st s = some (.error res)) :
    ∃ e, res = ⟨st.header, some st.rsdl, some st.rgl, some st.progl, none, e⟩ := by
  unfold stepPG at h
  cases hp : parseProgram s with
  | none => simp only [hp] at h; exact Option.noConfusion h
  | some p =>
    simp only [hp] at h
    split at h
    · split at h
      · simp only [Option.some.injEq, Except.error.injEq] at h
        exact ⟨_, h.symm⟩
      · simp at h
    · simp only [Option.some.injEq, Except.error.injEq] at h
      exact ⟨_, h.symm⟩

/-- Shape of an alignment-branch abort: all four lists as built. -/
theorem stepAlignment_error (st : ScanState) (s : String) (res : SAMResult)
    (h : stepAlignment st s = some (.error res)) :
    ∃ e, res = ⟨st.header, some st.rsdl, some st.rgl, some st.progl, some st.al, e⟩ := by
  unfold stepAlignment at h
  cases hp : parseAlignment s with
  | none => simp only [hp] at h; exact Option.noConfusion h
  | some a =>
    simp only [hp] at h
    split at h
    · simp at h
    · simp only [Option.some.injEq, Except.error.injEq] at h
      exact ⟨_, h.symm⟩

/-- Folding a field function over a list is unchanged by inserting a
field the function skips. -/
theorem foldlM_skip {σ : Type} (f : σ → String → Option σ) (tv : String)
    (hf : ∀ x, f x tv = some x) (fs1 fs2 : List String) (s0 : σ) :
    List.foldlM f s0 (fs1 ++ tv :: fs2) = List.foldlM f s0 (fs1 ++ fs2) := by
  induction fs1 generalizing s0 with
  | nil => simp [List.foldlM_cons, hf]
  | cons a l ih =>
    simp only [List.cons_append, List.foldlM_cons]
    cases hfa : f s0 a with
    | none => simp [hfa]
    | some s1 => simp [hfa, ih]

/-- Claim C2: for the three-line input of the end-to-end scenario the
claim asserts one accumulated alignment and an unset error; evaluating
the embedded `ReadSAMFile` shows the header and the RefSeqDict record
come out as claimed, but the well-formed alignment line is rejected
with the error "Invalid qname in alignment" and the alignment
collection is empty, because the qname pattern of `validateAlignment`
fails to compile in Go and its match is constantly false. -/
theorem ReadSAMFile_end_to_end_rejects_alignment :
    ReadSAMFile ["@HD\tVN:1.0\tSO:coordinate", "@SQ\tSN:chr1\tLN:248956422",
      "read1\t0\tchr1\t100\t60\t8M\t*\t0\t0\tACGTACGT\tIIIIIIII"] =
    some ⟨some ⟨"1.0", "coordinate"⟩, some [⟨"chr1", 248956422, "", "", "", ""⟩],
      some [], some [], some [], some ⟨"Invalid qname in alignment"⟩⟩ := by rfl

/-- Claim C3: an alignment-classified line with only 5 tab-separated
fields does not produce a structured MalformedLine error; `parseAlignment`
reads `fields[5]` through `fields[10]` unconditionally, so the scan
dies with a raw out-of-range indexing fault, modelled as `none`. -/
theorem ReadSAMFile_short_alignment_line_faults :
    ReadSAMFile ["a\tb\tc\td\te"] = none := by rfl

/-- Claim C4: `validateHeader` accepts Version "12x3", contradicting
the claim that the dot of the version pattern is treated as a literal
character: the source pattern is the unescaped "^[0-9]+.[0-9]+$", whose
dot matches the character x. -/
theorem validateHeader_accepts_12x3 :
    validateHeader ⟨"12x3", ""⟩ = (true, none) := by rfl

/-- Claim C5: a RefSeqDict line whose decoded length is outside
[1, 2^29-1] aborts the scan and is not accumulated, but the returned
error is nil rather than a GrammarViolation value naming the violated
rule: `validateRefSeqDict` returns `(false, nil)` on the length check,
and `ReadSAMFile` forwards that nil error. -/
theorem ReadSAMFile_refseq_bad_length_nil_error :
    ReadSAMFile ["@SQ\tSN:chr1\tLN:0"] =
      some ⟨none, none, none, none, none, none⟩ := by rfl

/-- Claim C6: if the scan completes a prefix containing an SQ line
whose record is `r1`, and the next processed line is an SQ line whose
record `r2` passes grammar validation and carries the same name, then
the scan aborts on that line with the duplicate-name error, the
returned RefSeqDict collection is exactly the list accumulated before
it (which contains `r1` and to which `r2` was never appended), and the
remaining lines are not consumed. -/
theorem ReadSAMFile_duplicate_refseq_name
    (p1 p2 rest : List String) (l1 l2 : String)
    (st : ScanState) (r1 r2 : RefSeqDict)
    (hrun : runLines initState (p1 ++ l1 :: p2) = some (.ok st))
    (htag1 : lineTag l1 = some "SQ") (hp1 : parseRefSeqDict l1 = some r1)
    (htag2 : lineTag l2 = some "SQ") (hp2 : parseRefSeqDict l2 = some r2)
    (hname : r2.Name = r1.Name)
    (hvalid2 : (validateRefSeqDict r2).1 = true) :
    ReadSAMFile ((p1 ++ l1 :: p2) ++ l2 :: rest) =
      some ⟨st.header, some st.rsdl, none, none, none,
        some ⟨"Reference sequence name is not unique"⟩⟩
    ∧ r1 ∈ st.rsdl := by
  have hl1 : l1 ∈ p1 ++ l1 :: p2 := List.mem_append_right _ (List.mem_cons_self _ _)
  have hmem := runLines_ok_sq_mem (p1 ++ l1 :: p2) initState st l1 r1 hl1 htag1 hp1 hrun
  have hdup : r2.Name ∈ st.rsdNames := by
    rw [hname]; exact hmem.2
  have hstep := step_sq_dup st l2 r2 htag2 hp2 hvalid2 hdup
  have hfull : runLines initState ((p1 ++ l1 :: p2) ++ l2 :: rest)
      = some (.error ⟨st.header, some st.rsdl, none, none, none,
        some ⟨"Reference sequence name is not unique"⟩⟩) := by
    rw [runLines_append_ok initState st _ _ hrun]
    simp [runLines, hstep]
  constructor
  · unfold ReadSAMFile
    rw [hfull]
  · exact hmem.1

/-- Claim C6 witness: two SQ lines with the name chr1; the scan returns
the first record only, with the duplicate-name error. -/
theorem ReadSAMFile_duplicate_refseq_name_witness :
    ReadSAMFile ["@SQ\tSN:chr1\tLN:5", "@SQ\tSN:chr1\tLN:7"] =
      some ⟨none, some [⟨"chr1", 5, "", "", "", ""⟩], none, none, none,
        some ⟨"Reference sequence name is not unique"⟩⟩
    ∧ (⟨"chr1", 5, "", "", "", ""⟩ : RefSeqDict) ∈ [(⟨"chr1", 5, "", "", "", ""⟩ : RefSeqDict)] :=
  ReadSAMFile_duplicate_refseq_name [] [] [] "@SQ\tSN:chr1\tLN:5" "@SQ\tSN:chr1\tLN:7"
    ⟨none, [⟨"chr1", 5, "", "", "", ""⟩], [], [], [], ["chr1"], [], []⟩
    ⟨"chr1", 5, "", "", "", ""⟩ ⟨"chr1", 7, "", "", "", ""⟩
    (by rfl) (by rfl) (by rfl) (by rfl) (by rfl) rfl (by rfl)

/-- Claim C7: a ReadGroup whose non-empty FlowOrder "ACGT" matches the
documented pattern and whose Platform "ILLUMINA" is in the enumeration
is rejected, not accepted: the FlowOrder pattern of the source,
"*|[ACMGRSVTWYHKDBN]+", does not compile in Go (leading star), so the
match is constantly false and every non-empty FlowOrder fails. -/
theorem validateReadGroup_rejects_valid_flow_order :
    validateReadGroup ⟨"grp1", "", "", "", "ACGT", "", "", "", "", "ILLUMINA", "", ""⟩ =
    (false, some ⟨"Invalid flow order in read group"⟩) := by rfl

/-- Claim C8 counterexample: a header field that lacks a colon entirely
is not silently skipped; `parseHeader` reads `tva[1]` before the key
lookup, so the line faults (modelled as `none`) instead of completing. -/
theorem parseHeader_colonless_field_faults :
    parseHeader "@HD\tVN:1.0\tZZ" = none := by rfl

/-- Claim C8 amended: in the Header and ReadGroup parsers, a field that
contains a colon and whose key is unknown is silently skipped — the
fold over the fields is unchanged by inserting it anywhere, and a line
carrying such a field parses to the same record as the line without it;
a field lacking a colon, by contrast, faults (see the counterexample). -/
theorem metadata_unknown_key_skipped
    (tv k v : String) (kr : List String)
    (hl : HeaderLine) (rg : ReadGroup)
    (fs1 fs2 gs1 gs2 : List String)
    (hsplit : goSplit tv ':' = k :: v :: kr)
    (hk : k ∉ (["VN", "SO", "ID", "CN", "DS", "DT", "FO", "KS", "LB",
        "PG", "PI", "PL", "PU", "SM"] : List String)) :
    List.foldlM parseHeaderField hl (fs1 ++ tv :: fs2) = List.foldlM parseHeaderField hl (fs1 ++ fs2)
    ∧ List.foldlM parseReadGroupField rg (gs1 ++ tv :: gs2) =
        List.foldlM parseReadGroupField rg (gs1 ++ gs2)
    ∧ parseHeader "@HD\tVN:1.0\tZZ:foo" = parseHeader "@HD\tVN:1.0" := by
  simp only [List.mem_cons, List.not_mem_nil, or_false, not_or] at hk
  obtain ⟨k1, k2, k3, k4, k5, k6, k7, k8, k9, k10, k11, k12, k13, k14⟩ := hk
  have hhf : ∀ x : HeaderLine, parseHeaderField x tv = some x := by
    intro x
    unfold parseHeaderField
    rw [hsplit]
    simp [k1, k2]
  have hrf : ∀ x : ReadGroup, parseReadGroupField x tv = some x := by
    intro x
    unfold parseReadGroupField
    rw [hsplit]
    simp [k3, k4, k5, k6, k7, k8, k9, k10, k11, k12, k13, k14]
  exact ⟨foldlM_skip _ _ hhf fs1 fs2 hl, foldlM_skip _ _ hrf gs1 gs2 rg, by rfl⟩

/-- Claim C8 amended witness: the unknown field "ZZ:foo" is skipped in
a header field list and a read-group field list, and at line level. -/
theorem metadata_unknown_key_skipped_witness :
    (List.foldlM parseHeaderField (⟨"", ""⟩ : HeaderLine) (["VN:1.0"] ++ "ZZ:foo" :: []) =
      List.foldlM parseHeaderField (⟨"", ""⟩ : HeaderLine) (["VN:1.0"] ++ []))
    ∧ (List.foldlM parseReadGroupField
        (⟨"", "", "", "", "", "", "", "", "", "", "", ""⟩ : ReadGroup) (["ID:g1"] ++ "ZZ:foo" :: []) =
      List.foldlM parseReadGroupField
        (⟨"", "", "", "", "", "", "", "", "", "", "", ""⟩ : ReadGroup) (["ID:g1"] ++ []))
    ∧ parseHeader "@HD\tVN:1.0\tZZ:foo" = parseHeader "@HD\tVN:1.0" :=
  metadata_unknown_key_skipped "ZZ:foo" "ZZ" "foo" [] ⟨"", ""⟩
    ⟨"", "", "", "", "", "", "", "", "", "", "", ""⟩ ["VN:1.0"] [] ["ID:g1"] []
    (by rfl) (by decide)

/-- Claim C9 counterexample: classification is not total — a line with
fewer than 3 characters is not routed anywhere; the slice `s[1:3]` in
the scan loop is an out-of-range fault and the whole scan dies
(modelled as `none`) on an empty line. -/
theorem ReadSAMFile_empty_line_faults :
    ReadSAMFile [""] = none := by rfl

/-- Claim C9 amended: every line with at least 3 characters whose
characters at positions 1 and 2 are none of HD, SQ, RG, PG, CO —
including lines that do not begin with the record-start marker — is
routed to the alignment branch of the scan loop; shorter lines fault
(see the counterexample). -/
theorem classification_default_alignment (st : ScanState) (s : String)
    (hlen : 3 ≤ s.data.length)
    (htag : String.mk ((s.data.drop 1).take 2) ∉ (["HD", "SQ", "RG", "PG", "CO"] : List String)) :
    step st s = stepAlignment st s := by
  have hne : ¬ s.data.length < 3 := Nat.not_lt.mpr hlen
  simp only [List.mem_cons, List.not_mem_nil, or_false, not_or] at htag
  obtain ⟨n1, n2, n3, n4, n5⟩ := htag
  have hlt : lineTag s = some (String.mk ((s.data.drop 1).take 2)) := by
    unfold lineTag
    rw [if_neg hne]
  unfold step
  rw [hlt]
  simp only [n1, n2, n3, n4, n5, if_false]

/-- Claim C9 amended witness: a markerless line is routed to the
alignment branch. -/
theorem classification_default_alignment_witness :
    step initState "read1\t0\tchr1" = stepAlignment initState "read1\t0\tchr1" :=
  classification_default_alignment initState "read1\t0\tchr1" (by decide) (by decide)

/-- Claim C10 counterexample: the flag field 10^19 is not a parseable
Go int (it exceeds 2^63-1, so `strconv.Atoi` reports a range error),
yet the stored Flag is 65535 — the clamped value (2^63-1) reduced
modulo 2^16 — not the zero value, and not the literal value reduced
modulo 2^16, which would be 0. -/
theorem parseAlignment_flag_overflow_clamps :
    parseAlignment "q\t10000000000000000000\tr\t0\t0\t*\t*\t0\t0\tA\tI" =
      some ⟨"q", 65535, "r", 0, 0, "*", "*", 0, 0, "A", "I"⟩
    ∧ (10000000000000000000 : Nat) % 2 ^ 16 = 0 := ⟨by rfl, by rfl⟩

/-- Claim C10 amended: a numeric field that is not a syntactically
valid signed decimal makes `atoi` yield 0 (so the parser stores the
zero value, as the RefSeqDict conjunct shows); a syntactically valid
decimal is first clamped by `strconv.Atoi` to the signed 64-bit range
and only then truncated modulo 2^w by the unsigned conversion, as the
alignment conjunct (flag 70000, pos -1, mapq 300) and the clamping
conjunct show. -/
theorem numeric_field_parsing_amended (s : String)
    (h : isGoDecimal s = false) :
    atoi s = 0
    ∧ parseRefSeqDict "@SQ\tSN:c\tLN:xyz" = some ⟨"c", 0, "", "", "", ""⟩
    ∧ parseAlignment "q\t70000\tr\t-1\t300\t*\t*\t0\t0\tA\tI" =
        some ⟨"q", 70000 % 2 ^ 16, "r", 2 ^ 32 - 1, 300 % 2 ^ 8, "*", "*", 0, 0, "A", "I"⟩
    ∧ atoi "10000000000000000000" = 2 ^ 63 - 1 := by
  refine ⟨?_, by rfl, by rfl, by rfl⟩
  simp [atoi, h]

/-- Claim C10 amended witness: instantiated at the syntactically
invalid field "70000x". -/
theorem numeric_field_parsing_amended_witness :
    atoi "70000x" = 0
    ∧ parseRefSeqDict "@SQ\tSN:c\tLN:xyz" = some ⟨"c", 0, "", "", "", ""⟩
    ∧ parseAlignment "q\t70000\tr\t-1\t300\t*\t*\t0\t0\tA\tI" =
        some ⟨"q", 70000 % 2 ^ 16, "r", 2 ^ 32 - 1, 300 % 2 ^ 8, "*", "*", 0, 0, "A", "I"⟩
    ∧ atoi "10000000000000000000" = 2 ^ 63 - 1 :=
  numeric_field_parsing_amended "70000x" (by rfl)

/-- Claim C1 counterexample: a record is accumulated from the first SQ
line, but when the second SQ line fails grammar validation the returned
RefSeqDict collection is unset (nil), not the as-built list — the
`case "SQ"` abort path returns nil for all four collections. The
returned error is also nil, since `validateRefSeqDict` pairs the failed
length check with a nil error. -/
theorem ReadSAMFile_sq_abort_drops_prior_refseq :
    runLines initState ["@SQ\tSN:chr1\tLN:5"] =
      some (.ok ⟨none, [⟨"chr1", 5, "", "", "", ""⟩], [], [], [], ["chr1"], [], []⟩) ∧
    ReadSAMFile ["@SQ\tSN:chr1\tLN:5", "@SQ\tSN:chr2\tLN:0"] =
      some ⟨none, none, none, none, none, none⟩ := ⟨by rfl, by rfl⟩

/-- Claim C1 amended: on abort the five-value return follows the fixed
per-branch pattern of the source, relative to the state `st` reached
before the failing line: an HD validation failure returns the newly
parsed header and all four collections unset; an SQ grammar failure
returns all four unset; an SQ duplicate returns the RefSeqDict list as
built and the rest unset; an RG failure returns the RefSeqDict and
ReadGroup lists as built and the rest unset; a PG failure additionally
returns the Program list; an alignment failure returns all four as
built. Collections of types later in this fixed order are returned
unset even when they were populated before the failing line. -/
theorem ReadSAMFile_abort_return_shape
    (pre : List String) (bad : String) (rest : List String)
    (st : ScanState) (res : SAMResult)
    (hpre : runLines initState pre = some (.ok st))
    (hbad : step st bad = some (.error res)) :
    ReadSAMFile (pre ++ bad :: rest) = some res ∧
    ((∃ hl e, res = ⟨some hl, none, none, none, none, e⟩)
     ∨ (∃ e, res = ⟨st.header, none, none, none, none, e⟩)
     ∨ res = ⟨st.header, some st.rsdl, none, none, none,
         some ⟨"Reference sequence name is not unique"⟩⟩
     ∨ (∃ e, res = ⟨st.header, some st.rsdl, some st.rgl, none, none, e⟩)
     ∨ (∃ e, res = ⟨st.header, some st.rsdl, some st.rgl, some st.progl, none, e⟩)
     ∨ (∃ e, res = ⟨st.header, some st.rsdl, some st.rgl, some st.progl, some st.al, e⟩)) := by
  constructor
  · have hfull : runLines initState (pre ++ bad :: rest) = some (.error res) := by
      rw [runLines_append_ok initState st _ _ hpre]
      simp [runLines, hbad]
    unfold ReadSAMFile
    rw [hfull]
  · unfold step at hbad
    cases ht : lineTag bad with
    | none => simp only [ht] at hbad; exact Option.noConfusion hbad
    | some tag =>
      simp only [ht] at hbad
      split at hbad
      · obtain ⟨hl, e, he⟩ := stepHD_error _ _ _ hbad
        exact Or.inl ⟨hl, e, he⟩
      · split at hbad
        · rcases stepSQ_error _ _ _ hbad with ⟨e, he⟩ | he
          · exact Or.inr (Or.inl ⟨e, he⟩)
          · exact Or.inr (Or.inr (Or.inl he))
        · split at hbad
          · obtain ⟨e, he⟩ := stepRG_error _ _ _ hbad
            exact Or.inr (Or.inr (Or.inr (Or.inl ⟨e, he⟩)))
          · split at hbad
            · obtain ⟨e, he⟩ := stepPG_error _ _ _ hbad
              exact Or.inr (Or.inr (Or.inr (Or.inr (Or.inl ⟨e, he⟩))))
            · split at hbad
              · simp at hbad
              · obtain ⟨e, he⟩ := stepAlignment_error _ _ _ hbad
                exact Or.inr (Or.inr (Or.inr (Or.inr (Or.inr ⟨e, he⟩))))

/-- Claim C1 amended witness: a read-group validation failure after one
accumulated SQ record; the return keeps the RefSeqDict and ReadGroup
lists and leaves the Program and Alignment lists unset. -/
theorem ReadSAMFile_abort_return_shape_witness :
    ReadSAMFile (["@SQ\tSN:chr1\tLN:5"] ++ "@RG\tID:g\tFO:ACGT" :: []) =
      some ⟨none, some [⟨"chr1", 5, "", "", "", ""⟩], some [], none, none,
        some ⟨"Invalid flow order in read group"⟩⟩
    ∧ ((∃ hl e, (⟨none, some [⟨"chr1", 5, "", "", "", ""⟩], some [], none, none,
          some ⟨"Invalid flow order in read group"⟩⟩ : SAMResult) = ⟨some hl, none, none, none, none, e⟩)
     ∨ (∃ e, (⟨none, some [⟨"chr1", 5, "", "", "", ""⟩], some [], none, none,
          some ⟨"Invalid flow order in read group"⟩⟩ : SAMResult) = ⟨none, none, none, none, none, e⟩)
     ∨ (⟨none, some [⟨"chr1", 5, "", "", "", ""⟩], some [], none, none,
          some ⟨"Invalid flow order in read group"⟩⟩ : SAMResult) =
        ⟨none, some [⟨"chr1", 5, "", "", "", ""⟩], none, none, none,
          some ⟨"Reference sequence name is not unique"⟩⟩
     ∨ (∃ e, (⟨none, some [⟨"chr1", 5, "", "", "", ""⟩], some [], none, none,
          some ⟨"Invalid flow order in read group"⟩⟩ : SAMResult) =
        ⟨none, some [⟨"chr1", 5, "", "", "", ""⟩], some [], none, none, e⟩)
     ∨ (∃ e, (⟨none, some [⟨"chr1", 5, "", "", "", ""⟩], some [], none, none,
          some ⟨"Invalid flow order in read group"⟩⟩ : SAMResult) =
        ⟨none, some [⟨"chr1", 5, "", "", "", ""⟩], some [], some [], none, e⟩)
     ∨ (∃ e, (⟨none, some [⟨"chr1", 5, "", "", "", ""⟩], some [], none, none,
          some ⟨"Invalid flow order in read group"⟩⟩ : SAMResult) =
        ⟨none, some [⟨"chr1", 5, "", "", "", ""⟩], some [], some [], some [], e⟩)) :=
  ReadSAMFile_abort_return_shape ["@SQ\tSN:chr1\tLN:5"] "@RG\tID:g\tFO:ACGT" []
    ⟨none, [⟨"chr1", 5, "", "", "", ""⟩], [], [], [], ["chr1"], [], []⟩
    ⟨none, some [⟨"chr1", 5, "", "", "", ""⟩], some [], none, none,
      some ⟨"Invalid flow order in read group"⟩⟩
    (by rfl) (by rfl)

end GoSAM
